import Mathlib

/-!
Shallow embedding of the blog backend (Express + Mongoose) request handlers:
user registration/login, admin user listing, and post CRUD, as implemented in
`src/index.js` (the richest variant) with the Post schema from
`src/models/Post.js`.  The document store is modelled as in-memory lists, the
password hasher (bcrypt) as explicit function parameters, and loosely typed
JavaScript request fields as `Option`s / a small JS-value type with truthiness.
-/

namespace Blog

/-- A minimal JavaScript value type, used for untyped request-body fields
(`isAdmin` in the register body can be any JSON value). -/
inductive JSVal where
  | undef
  | null
  | bool (b : Bool)
  | str (s : String)
  | num (n : Int)
deriving DecidableEq, Repr

/-- JavaScript truthiness of a value. -/
def JSVal.truthy : JSVal → Bool
  | .undef => false
  | .null => false
  | .bool b => b
  | .str s => s != ""
  | .num n => n != 0

/-- JavaScript `a || b`: the left operand when truthy, otherwise the right. -/
def JSVal.orDefault (a b : JSVal) : JSVal :=
  if a.truthy then a else b

/-- Truthiness of an optional string body field: absent (`undefined`) and the
empty string are falsy, as in JavaScript `!x`. -/
def truthyStr : Option String → Bool
  | none => false
  | some s => s != ""

/-- A stored user document.  `src/models/User.js` is absent from `src/`; the
field set is modelled from the spec (§3): store-assigned `id`, `username`,
`email`, `password` (the stored hash, spec's `passwordHash`), `isAdmin`
(boolean, default false), and a creation time used for sorting. -/
structure User where
  id : Nat
  username : String
  email : String
  password : String
  isAdmin : Bool
  createdAt : Nat
deriving DecidableEq, Repr

/-- Modelled from the spec: `src/models/User.js` is absent from `src/`; spec §3
defines `isAdmin` as a boolean defaulting to false, so the store's cast of the
caller-supplied value onto the boolean field is modelled as JS truthiness. -/
def castBool (v : JSVal) : Bool := v.truthy

/-- The `author` field of a post: a sum of a user-id reference and a raw
string (`mongoose.Schema.Types.Mixed` in `src/models/Post.js`, used only at
these two shapes by `POST /api/posts`). -/
inductive AuthorVal where
  | uid (id : Nat)
  | raw (s : String)
deriving DecidableEq, Repr

/-- A stored post document, after `src/models/Post.js`:
title/content/category required strings, `author` mixed, `createdAt` and
`updatedAt` defaulting to creation time, optional `thumbnail`, `images`
(list of strings, default empty), optional `keywords`, `subtitle`,
`authorGmail`. -/
structure Post where
  id : Nat
  title : String
  content : String
  author : AuthorVal
  category : String
  createdAt : Nat
  updatedAt : Nat
  thumbnail : Option String := none
  images : List String := []
  keywords : Option String := none
  subtitle : Option String := none
  authorGmail : Option String := none
deriving DecidableEq, Repr

/-- The document store: the two collections the verified handlers touch, plus
counters standing for the store's id assignment. -/
structure DB where
  users : List User := []
  posts : List Post := []
  nextUserId : Nat := 0
  nextPostId : Nat := 0
deriving DecidableEq, Repr

/-- A user record as returned by the admin listing: the projection
`{ password: 0 }` of `User.find` keeps every field except the stored hash. -/
structure PublicUser where
  id : Nat
  username : String
  email : String
  isAdmin : Bool
  createdAt : Nat
deriving DecidableEq, Repr

/-- Projection `{ password: 0 }` applied to one stored user. -/
def User.toPublic (u : User) : PublicUser :=
  ⟨u.id, u.username, u.email, u.isAdmin, u.createdAt⟩

/-- The serialized field names of a `PublicUser` record in the admin-listing
payload. -/
def publicUserKeys : List String :=
  ["_id", "username", "email", "isAdmin", "createdAt"]

/-- The `user` object embedded in register/login success responses:
`{ id, username, email, isAdmin }`. -/
structure UserSummary where
  id : Nat
  username : String
  email : String
  isAdmin : Bool
deriving DecidableEq, Repr

/-- The JSON bodies the verified handlers can produce.  `post` is a body
consisting of a single Post document; no handler in the source builds one, but
the constructor is needed to state (and refute) the spec's "returns the
updated Post" claim. -/
inductive Body where
  | error (msg : String)
  | message (msg : String)
  | userRes (msg : String) (user : UserSummary)
  | users (list : List PublicUser)
  | posts (list : List Post)
  | post (doc : Post)
deriving DecidableEq, Repr

/-- Top-level (dotted for nesting) field names of a serialized body. -/
def Body.keys : Body → List String
  | .error _ => ["error"]
  | .message _ => ["message"]
  | .userRes _ _ => ["message", "user.id", "user.username", "user.email", "user.isAdmin"]
  | .users _ => []
  | .posts _ => []
  | .post _ => []

/-- Every string value occurring in a serialized body (used to check that
secrets do not appear in responses). -/
def Body.strings : Body → List String
  | .error m => [m]
  | .message m => [m]
  | .userRes m u => [m, u.username, u.email]
  | .users _ => []
  | .posts _ => []
  | .post _ => []

/-- An HTTP response: status code plus JSON body. -/
structure Resp where
  status : Nat
  body : Body
deriving DecidableEq, Repr

/-! ## Handlers -/

/-- Request body of `POST /api/register`. -/
structure RegisterBody where
  name : Option String := none
  email : Option String := none
  password : Option String := none
  isAdmin : JSVal := .undef
deriving DecidableEq, Repr

/-- Handler `POST /api/register` (src/index.js:92-134): presence check on
name/email/password, duplicate-email check, duplicate-username check, then
hash the password and persist the user; 201 returns id/username/email/isAdmin.
`hash` stands for `bcrypt.hash(·, 10)`, `now` for the store-assigned creation
time. -/
def register (hash : String → String) (now : Nat) (db : DB) (b : RegisterBody) :
    Resp × DB :=
  let name := b.name.getD ""
  let email := b.email.getD ""
  let password := b.password.getD ""
  if !truthyStr b.name || !truthyStr b.email || !truthyStr b.password then
    (⟨400, .error "All fields are required."⟩, db)
  else if (db.users.find? (fun u => u.email == email)).isSome then
    (⟨400, .error "Email already registered."⟩, db)
  else if (db.users.find? (fun u => u.username == name)).isSome then
    (⟨400, .error "Username already taken."⟩, db)
  else
    let u : User :=
      { id := db.nextUserId
        username := name
        email := email
        password := hash password
        isAdmin := castBool (JSVal.orDefault b.isAdmin (.bool false))
        createdAt := now }
    (⟨201, .userRes "User registered successfully." ⟨u.id, u.username, u.email, u.isAdmin⟩⟩,
      { db with users := db.users ++ [u], nextUserId := db.nextUserId + 1 })

/-- The 401 message `POST /api/login` in src/index.js:146 sends when no user
has the given email: the string literal contains a run of 73 spaces between
"In" and "valid". -/
def noUserLoginMsg : String :=
  "In                                                                         valid email or password."

/-- The 401 message sent on a password mismatch (src/index.js:150). -/
def badPasswordMsg : String := "Invalid email or password."

/-- Handler `POST /api/login` (src/index.js:138-164): presence check, lookup by email
(absent → 401 with `noUserLoginMsg`), hash comparison (mismatch → 401 with
`badPasswordMsg`), success → 200 with the user summary.  `cmp` stands for
`bcrypt.compare`. -/
def login (cmp : String → String → Bool) (db : DB)
    (email password : Option String) : Resp :=
  if !truthyStr email || !truthyStr password then
    ⟨400, .error "All fields are required."⟩
  else
    match db.users.find? (fun u => u.email == email.getD "") with
    | none => ⟨401, .error noUserLoginMsg⟩
    | some u =>
      if !cmp (password.getD "") u.password then
        ⟨401, .error badPasswordMsg⟩
      else
        ⟨200, .userRes "Login successful." ⟨u.id, u.username, u.email, u.isAdmin⟩⟩

/-- Handler `POST /api/login` as written in the `src/unnamed/part_001` variant
(lines 256-287): identical to `login` except that both 401 branches send
`badPasswordMsg`. -/
def loginVariant (cmp : String → String → Bool) (db : DB)
    (email password : Option String) : Resp :=
  if !truthyStr email || !truthyStr password then
    ⟨400, .error "All fields are required."⟩
  else
    match db.users.find? (fun u => u.email == email.getD "") with
    | none => ⟨401, .error badPasswordMsg⟩
    | some u =>
      if !cmp (password.getD "") u.password then
        ⟨401, .error badPasswordMsg⟩
      else
        ⟨200, .userRes "Login successful." ⟨u.id, u.username, u.email, u.isAdmin⟩⟩

/-- Descending order on creation time: the Boolean comparator behind
`.sort({ createdAt: -1 })`. -/
def createdDesc (a b : PublicUser) : Bool :=
  b.createdAt ≤ a.createdAt

/-- Handler `GET /api/register` (src/index.js:75-89): the request is admitted when the
`isAdmin` query parameter or the `x-admin` header equals `"true"` (logical OR);
otherwise 403.  On success, every user is returned with the password projected
out, sorted by creation time descending. -/
def getRegister (db : DB) (queryIsAdmin headerXAdmin : Option String) : Resp :=
  let isAdmin := queryIsAdmin == some "true" || headerXAdmin == some "true"
  if !isAdmin then
    ⟨403, .error "Access denied. Admins only."⟩
  else
    ⟨200, .users ((db.users.map User.toPublic).mergeSort createdDesc)⟩

/-- Identity resolution (spec §4.1, src/index.js:201-207): look the author name
up among the users by exact username match; found → the user's id reference,
absent → the original string unchanged.  Pure read of the user collection. -/
def resolveAuthor (users : List User) (author : String) : AuthorVal :=
  match users.find? (fun u => u.username == author) with
  | some u => .uid u.id
  | none => .raw author

/-- Request body of `POST /api/posts`. -/
structure CreateBody where
  title : Option String := none
  content : Option String := none
  author : Option String := none
  category : Option String := none
  createdAt : Option Nat := none
  thumbnail : Option String := none
  images : Option (List String) := none
  keywords : Option String := none
  subtitle : Option String := none
  authorGmail : Option String := none
deriving DecidableEq, Repr

/-- Handler `POST /api/posts` (src/index.js:195-225): presence check on
title/content/author/category, author resolution, then persist with the schema
defaults of `src/models/Post.js` (`createdAt ? new Date(createdAt) : undefined`
falls back to the schema default `Date.now`, as does `updatedAt`; `images`
defaults to the empty list).  Success is a bare confirmation message. -/
def createPost (now : Nat) (db : DB) (b : CreateBody) : Resp × DB :=
  if !truthyStr b.title || !truthyStr b.content ||
      !truthyStr b.author || !truthyStr b.category then
    (⟨400, .error "Missing required fields."⟩, db)
  else
    let post : Post :=
      { id := db.nextPostId
        title := b.title.getD ""
        content := b.content.getD ""
        author := resolveAuthor db.users (b.author.getD "")
        category := b.category.getD ""
        createdAt := match b.createdAt with
          | some t => if t != 0 then t else now
          | none => now
        updatedAt := now
        thumbnail := b.thumbnail
        images := b.images.getD []
        keywords := b.keywords
        subtitle := b.subtitle
        authorGmail := b.authorGmail }
    (⟨201, .message "Post created successfully."⟩,
      { db with posts := db.posts ++ [post], nextPostId := db.nextPostId + 1 })

/-- An update request body for `PUT /api/posts/:id`: each field is present
(`some`) or absent (`none`).  `findByIdAndUpdate` with a plain object treats
the present fields as a `$set` overlay; the document id itself is immutable. -/
structure UpdateBody where
  title : Option String := none
  content : Option String := none
  author : Option AuthorVal := none
  category : Option String := none
  createdAt : Option Nat := none
  updatedAt : Option Nat := none
  thumbnail : Option String := none
  images : Option (List String) := none
  keywords : Option String := none
  subtitle : Option String := none
  authorGmail : Option String := none
deriving DecidableEq, Repr

/-- Overlay the present fields of an update body onto a stored post
(`$set` semantics of `findByIdAndUpdate`). -/
def applyUpdate (p : Post) (u : UpdateBody) : Post :=
  { p with
    title := u.title.getD p.title
    content := u.content.getD p.content
    author := u.author.getD p.author
    category := u.category.getD p.category
    createdAt := u.createdAt.getD p.createdAt
    updatedAt := u.updatedAt.getD p.updatedAt
    thumbnail := match u.thumbnail with
      | some s => some s
      | none => p.thumbnail
    images := u.images.getD p.images
    keywords := match u.keywords with
      | some s => some s
      | none => p.keywords
    subtitle := match u.subtitle with
      | some s => some s
      | none => p.subtitle
    authorGmail := match u.authorGmail with
      | some s => some s
      | none => p.authorGmail }

/-- Apply an update to the first post with the given id, leaving every other
document untouched (the store updates the single document matching `_id`). -/
def updateFirst (i : Nat) (u : UpdateBody) : List Post → List Post
  | [] => []
  | p :: ps =>
    if p.id == i then applyUpdate p u :: ps
    else p :: updateFirst i u ps

/-- Handler `PUT /api/posts/:id` (src/index.js:166-174): `findByIdAndUpdate` with the
request body; no matching document → 404; otherwise the overlay is persisted
and the handler responds 200 with a bare confirmation message. -/
def updatePost (db : DB) (i : Nat) (u : UpdateBody) : Resp × DB :=
  match db.posts.find? (fun p => p.id == i) with
  | none => (⟨404, .error "Post not found."⟩, db)
  | some _ =>
    (⟨200, .message "Post updated successfully."⟩,
      { db with posts := updateFirst i u db.posts })

/-- Handler `DELETE /api/posts/:id` (src/index.js:176-184): `findByIdAndDelete`; no
matching document → 404; otherwise the single matching document is removed and
the handler responds 200 with a confirmation message. -/
def deletePost (db : DB) (i : Nat) : Resp × DB :=
  match db.posts.find? (fun p => p.id == i) with
  | none => (⟨404, .error "Post not found."⟩, db)
  | some _ =>
    (⟨200, .message "Post deleted successfully."⟩,
      { db with posts := db.posts.eraseP (fun p => p.id == i) })

/-! ## Helper lemmas -/

/-- A successful `find?` splits the list at the first match: everything before
it fails the predicate. -/
theorem find?_split {α : Type} {f : α → Bool} {a : α} {l : List α}
    (h : l.find? f = some a) :
    ∃ l1 l2, l = l1 ++ a :: l2 ∧ (∀ x ∈ l1, f x = false) ∧ f a = true := by
  induction l with
  | nil => simp at h
  | cons x xs ih =>
    by_cases hx : f x = true
    · rw [List.find?_cons_of_pos _ hx] at h
      injection h with h
      subst h
      exact ⟨[], xs, rfl, by simp, hx⟩
    · rw [List.find?_cons_of_neg _ hx] at h
      obtain ⟨l1, l2, rfl, hl1, hfa⟩ := ih h
      refine ⟨x :: l1, l2, rfl, ?_, hfa⟩
      intro y hy
      rcases List.mem_cons.mp hy with rfl | hy
      · exact Bool.not_eq_true _ |>.mp hx
      · exact hl1 y hy

/-- Function `updateFirst` rewrites exactly the first matching document and keeps every
other element of the list. -/
theorem updateFirst_eq (i : Nat) (u : UpdateBody) (l1 : List Post) (p : Post)
    (l2 : List Post) (h1 : ∀ q ∈ l1, (q.id == i) = false)
    (hp : (p.id == i) = true) :
    updateFirst i u (l1 ++ p :: l2) = l1 ++ applyUpdate p u :: l2 := by
  induction l1 with
  | nil => simp [updateFirst, hp]
  | cons x xs ih =>
    have hx : (x.id == i) = false := h1 x (List.mem_cons_self x xs)
    simp [updateFirst, hx, ih (fun q hq => h1 q (List.mem_cons_of_mem x hq))]

/-! ## C1 — login failure responses (src/index.js:138-164) -/

/-- Fixture: one registered user. -/
def c1User : User :=
  { id := 0, username := "alice", email := "a@x.com", password := "h1"
    isAdmin := false, createdAt := 5 }

/-- Fixture database for the login runs. -/
def c1DB : DB := { users := [c1User] }

/-- C1: the claim says the unknown-email run and the wrong-password run of
`POST /api/login` return 401 with an identical error message.  On
`src/index.js` both runs do return 401, but the bodies differ: the
unknown-email branch sends `noUserLoginMsg`, whose literal contains a run of
73 spaces, while the password-mismatch branch sends `badPasswordMsg`.  The
`src/unnamed/part_001` variant of the handler sends identical bodies in the
two runs, matching the spec's stated intent. -/
theorem c1_login_messages_differ :
    (login (fun _ _ => false) c1DB (some "b@x.com") (some "pw")).status = 401 ∧
    (login (fun _ _ => false) c1DB (some "a@x.com") (some "pw")).status = 401 ∧
    (login (fun _ _ => false) c1DB (some "b@x.com") (some "pw")).body ≠
      (login (fun _ _ => false) c1DB (some "a@x.com") (some "pw")).body ∧
    noUserLoginMsg ≠ badPasswordMsg ∧
    loginVariant (fun _ _ => false) c1DB (some "b@x.com") (some "pw") =
      loginVariant (fun _ _ => false) c1DB (some "a@x.com") (some "pw") := by
  refine ⟨rfl, rfl, ?_, ?_, rfl⟩ <;> decide

/-! ## C2 — post update response (src/index.js:166-174) -/

/-- Fixture: a stored post. -/
def c2Post : Post :=
  { id := 1, title := "t", content := "c", author := .raw "bob"
    category := "old", createdAt := 1, updatedAt := 1 }

/-- Fixture database holding exactly `c2Post`. -/
def c2DB : DB := { posts := [c2Post], nextPostId := 2 }

/-- Fixture update body `{category: "x"}`. -/
def c2Update : UpdateBody := { category := some "x" }

/-- C2 counterexample: updating the stored post with id 1 does return 200, but
the response body is the bare confirmation message, not the updated Post
document the claim promises. -/
theorem c2_counterexample :
    (updatePost c2DB 1 c2Update).1.status = 200 ∧
    (updatePost c2DB 1 c2Update).1.body = .message "Post updated successfully." ∧
    (updatePost c2DB 1 c2Update).1.body ≠ Body.post (applyUpdate c2Post c2Update) := by
  refine ⟨rfl, rfl, ?_⟩ ; decide

/-- C2 (amended): on an existing id, `PUT /api/posts/:id` overlays the
caller-supplied fields onto the stored document and returns 200 with the bare
confirmation message `"Post updated successfully."` (not the updated
document); on an unknown id it returns 404 and changes nothing. -/
theorem c2_update_amended (db : DB) (i : Nat) (u : UpdateBody) :
    ((db.posts.find? (fun p => p.id == i)).isSome →
      (updatePost db i u).1 = ⟨200, .message "Post updated successfully."⟩ ∧
      (updatePost db i u).2.posts = updateFirst i u db.posts ∧
      (updatePost db i u).2.users = db.users) ∧
    (db.posts.find? (fun p => p.id == i) = none →
      updatePost db i u = (⟨404, .error "Post not found."⟩, db)) := by
  cases hf : db.posts.find? (fun p => p.id == i) with
  | none => simp [updatePost, hf]
  | some p => simp [updatePost, hf]

/-- C2 witness: the amended theorem applied to the fixture database. -/
theorem c2_update_amended_witness :
    (updatePost c2DB 1 c2Update).1 = ⟨200, .message "Post updated successfully."⟩ :=
  ((c2_update_amended c2DB 1 c2Update).1 (by decide)).1

/-! ## C4 — frame property of category-only updates (src/index.js:166-174) -/

/-- C4: an update whose body is exactly `{category: x}` rewrites only the
`category` field of the matched post; every other field of that post, and
every other post in the store (the documents before and after it), as well as
the user collection, are unchanged. -/
theorem c4_category_update_frame (db : DB) (i : Nat) (x : String) (p : Post)
    (hfind : db.posts.find? (fun q => q.id == i) = some p) :
    ∃ l1 l2,
      db.posts = l1 ++ p :: l2 ∧
      (updatePost db i { category := some x }).2.posts =
        l1 ++ { p with category := x } :: l2 ∧
      (updatePost db i { category := some x }).2.users = db.users ∧
      (updatePost db i { category := some x }).1.status = 200 := by
  obtain ⟨l1, l2, hsplit, hl1, hp⟩ := find?_split hfind
  refine ⟨l1, l2, hsplit, ?_, by simp [updatePost, hfind], by simp [updatePost, hfind]⟩
  have happly : applyUpdate p { category := some x } = { p with category := x } := rfl
  simp only [updatePost, hfind]
  rw [hsplit, updateFirst_eq i _ l1 p l2 hl1 hp, happly]

/-- Fixtures for the C4 witness: two stored posts. -/
def c4Post : Post :=
  { id := 7, title := "a", content := "b", author := .uid 3
    category := "old", createdAt := 2, updatedAt := 2 }

/-- A second stored post that the update must not touch. -/
def c4Other : Post :=
  { id := 8, title := "o", content := "p", author := .raw "guest"
    category := "misc", createdAt := 3, updatedAt := 3 }

/-- Fixture database for the C4 witness. -/
def c4DB : DB := { posts := [c4Post, c4Other], nextPostId := 9 }

/-- C4 witness: the frame theorem applied to the two-post fixture. -/
theorem c4_category_update_frame_witness :
    ∃ l1 l2,
      c4DB.posts = l1 ++ c4Post :: l2 ∧
      (updatePost c4DB 7 { category := some "x" }).2.posts =
        l1 ++ { c4Post with category := "x" } :: l2 ∧
      (updatePost c4DB 7 { category := some "x" }).2.users = c4DB.users ∧
      (updatePost c4DB 7 { category := some "x" }).1.status = 200 :=
  c4_category_update_frame c4DB 7 "x" c4Post (by decide)

/-! ## C10 — delete then delete again (src/index.js:176-184) -/

/-- When no stored post matches the id, `DELETE /api/posts/:id` responds 404
and leaves the store unchanged. -/
theorem deletePost_of_none (db : DB) (i : Nat)
    (h : db.posts.find? (fun q => q.id == i) = none) :
    deletePost db i = (⟨404, .error "Post not found."⟩, db) := by
  simp [deletePost, h]

/-- C10: deleting an existing post id returns 200 and removes exactly the
matched document (the store keeps the documents before and after it); under
unique ids, a second delete of the same id finds nothing, returns 404 and
leaves the store unchanged. -/
theorem c10_delete_twice (db : DB) (i : Nat) (p : Post)
    (hfind : db.posts.find? (fun q => q.id == i) = some p)
    (hnodup : (db.posts.map Post.id).Nodup) :
    (deletePost db i).1 = ⟨200, .message "Post deleted successfully."⟩ ∧
    (∃ l1 l2, db.posts = l1 ++ p :: l2 ∧ (deletePost db i).2.posts = l1 ++ l2) ∧
    (deletePost db i).2.users = db.users ∧
    deletePost (deletePost db i).2 i =
      (⟨404, .error "Post not found."⟩, (deletePost db i).2) := by
  obtain ⟨l1, l2, hsplit, hl1, hp⟩ := find?_split hfind
  have herase : db.posts.eraseP (fun q => q.id == i) = l1 ++ l2 := by
    rw [hsplit, List.eraseP_append_right _ (by simpa using hl1)]
    simp [hp]
  have hposts : (deletePost db i).2.posts = l1 ++ l2 := by
    simp [deletePost, hfind, herase]
  have hnone : (l1 ++ l2).find? (fun q => q.id == i) = none := by
    rw [List.find?_eq_none]
    intro q hq
    rcases List.mem_append.mp hq with hq1 | hq2
    · simp [hl1 q hq1]
    · intro hqi
      have hpi : p.id = i := by simpa using hp
      have hqi' : q.id = i := by simpa using hqi
      have : p.id ∈ l2.map Post.id := by
        rw [hpi, ← hqi']
        exact List.mem_map_of_mem Post.id hq2
      rw [hsplit] at hnodup
      simp only [List.map_append, List.map_cons, List.nodup_append] at hnodup
      exact (List.nodup_cons.mp hnodup.2.1).1 this
  have hfind2 : (deletePost db i).2.posts.find? (fun q => q.id == i) = none := by
    rw [hposts]; exact hnone
  exact ⟨by simp [deletePost, hfind], ⟨l1, l2, hsplit, hposts⟩,
    by simp [deletePost, hfind], deletePost_of_none _ i hfind2⟩

/-- Fixture: a post the C10 witness deletes. -/
def c10Post : Post :=
  { id := 4, title := "d", content := "e", author := .raw "guest"
    category := "c", createdAt := 1, updatedAt := 1 }

/-- Fixture: a second post the C10 witness must keep. -/
def c10Other : Post :=
  { id := 5, title := "f", content := "g", author := .uid 2
    category := "c", createdAt := 2, updatedAt := 2 }

/-- Fixture database for the C10 witness. -/
def c10DB : DB := { posts := [c10Post, c10Other], nextPostId := 6 }

/-- C10 witness: deleting id 4 from the two-post fixture answers 200, and the
immediate second delete of the same id answers 404. -/
theorem c10_delete_twice_witness :
    (deletePost c10DB 4).1 = ⟨200, .message "Post deleted successfully."⟩ ∧
    deletePost (deletePost c10DB 4).2 4 =
      (⟨404, .error "Post not found."⟩, (deletePost c10DB 4).2) :=
  ⟨(c10_delete_twice c10DB 4 c10Post (by decide) (by decide)).1,
    (c10_delete_twice c10DB 4 c10Post (by decide) (by decide)).2.2.2⟩

/-! ## C3 — author resolution on post creation (src/index.js:195-225) -/

/-- C3: when all four required fields are present, `POST /api/posts` answers
201, never touches the user collection, and appends exactly one post whose
`author` is the identity resolution of the request's author string: the id of
a stored user whose username matches exactly, or the original string unchanged
when no username matches. -/
theorem c3_author_resolution (now : Nat) (db : DB) (b : CreateBody)
    (ht : truthyStr b.title = true) (hc : truthyStr b.content = true)
    (ha : truthyStr b.author = true) (hk : truthyStr b.category = true) :
    (createPost now db b).1.status = 201 ∧
    (createPost now db b).2.users = db.users ∧
    ∃ post : Post,
      (createPost now db b).2.posts = db.posts ++ [post] ∧
      post.author = resolveAuthor db.users (b.author.getD "") ∧
      ((∀ u ∈ db.users, u.username ≠ b.author.getD "") →
        post.author = .raw (b.author.getD "")) ∧
      (∀ u : User,
        db.users.find? (fun v => v.username == b.author.getD "") = some u →
        u ∈ db.users ∧ u.username = b.author.getD "" ∧ post.author = .uid u.id) := by
  have hcond : (!truthyStr b.title || !truthyStr b.content ||
      !truthyStr b.author || !truthyStr b.category) = false := by
    simp [ht, hc, ha, hk]
  simp only [createPost, hcond, Bool.false_eq_true, if_false]
  refine ⟨trivial, trivial, _, rfl, rfl, ?_, ?_⟩
  · intro habs
    have hnone : db.users.find? (fun v => v.username == b.author.getD "") = none :=
      List.find?_eq_none.mpr (fun u hu => by simp [habs u hu])
    simp [resolveAuthor, hnone]
  · intro u hu
    exact ⟨List.mem_of_find?_eq_some hu, by simpa using List.find?_some hu,
      by simp [resolveAuthor, hu]⟩

/-- Fixture: a registered user the C3 witness resolves against. -/
def c3User : User :=
  { id := 1, username := "alice", email := "a@x.com", password := "h"
    isAdmin := false, createdAt := 1 }

/-- Fixture database for the C3 witness. -/
def c3DB : DB := { users := [c3User], nextUserId := 2 }

/-- Fixture create request authored by the registered username. -/
def c3Body : CreateBody :=
  { title := some "t", content := some "c", author := some "alice"
    category := some "k" }

/-- C3 witness: the theorem applied to the fixture request. -/
theorem c3_author_resolution_witness :
    (createPost 9 c3DB c3Body).1.status = 201 ∧
    (createPost 9 c3DB c3Body).2.users = c3DB.users :=
  ⟨(c3_author_resolution 9 c3DB c3Body (by decide) (by decide) (by decide)
      (by decide)).1,
    (c3_author_resolution 9 c3DB c3Body (by decide) (by decide) (by decide)
      (by decide)).2.1⟩

/-! ## C5 — registration rejections (src/index.js:92-134) -/

/-- C5: `POST /api/register` answers 400 without persisting anything when a
required field is missing, when the email is already registered, or (the
latest variant's extra check) when the name is already taken as a username. -/
theorem c5_register_rejects (hash : String → String) (now : Nat) (db : DB)
    (b : RegisterBody) :
    ((truthyStr b.name = false ∨ truthyStr b.email = false ∨
      truthyStr b.password = false) →
      register hash now db b = (⟨400, .error "All fields are required."⟩, db)) ∧
    (truthyStr b.name = true → truthyStr b.email = true →
      truthyStr b.password = true →
      (∃ u ∈ db.users, u.email = b.email.getD "") →
      register hash now db b = (⟨400, .error "Email already registered."⟩, db)) ∧
    (truthyStr b.name = true → truthyStr b.email = true →
      truthyStr b.password = true →
      (∀ u ∈ db.users, u.email ≠ b.email.getD "") →
      (∃ u ∈ db.users, u.username = b.name.getD "") →
      register hash now db b = (⟨400, .error "Username already taken."⟩, db)) := by
  refine ⟨?_, ?_, ?_⟩
  · rintro (h | h | h) <;> simp [register, h]
  · rintro hn he hp ⟨u, hu, hue⟩
    have hfind : (db.users.find? (fun v => v.email == b.email.getD "")).isSome :=
      List.find?_isSome.mpr ⟨u, hu, by simp [hue]⟩
    simp [register, hn, he, hp, hfind]
  · rintro hn he hp habs ⟨u, hu, hun⟩
    have hnone : db.users.find? (fun v => v.email == b.email.getD "") = none :=
      List.find?_eq_none.mpr (fun v hv => by simp [habs v hv])
    have hfind : (db.users.find? (fun v => v.username == b.name.getD "")).isSome :=
      List.find?_isSome.mpr ⟨u, hu, by simp [hun]⟩
    simp [register, hn, he, hp, hnone, hfind]

/-- Fixture: an already-registered user for the C5 witness. -/
def c5User : User :=
  { id := 0, username := "eve", email := "e@x.com", password := "h"
    isAdmin := false, createdAt := 1 }

/-- Fixture database for the C5 witness. -/
def c5DB : DB := { users := [c5User], nextUserId := 1 }

/-- Fixture register request reusing the stored email. -/
def c5Body : RegisterBody :=
  { name := some "eve2", email := some "e@x.com", password := some "pw" }

/-- C5 witness: re-registering the stored email answers 400 and persists
nothing. -/
theorem c5_register_rejects_witness :
    register (fun s => s ++ "#") 7 c5DB c5Body =
      (⟨400, .error "Email already registered."⟩, c5DB) :=
  (c5_register_rejects (fun s => s ++ "#") 7 c5DB c5Body).2.1
    (by decide) (by decide) (by decide) ⟨c5User, (by decide), (by decide)⟩

/-! ## C6 — registration success body (src/index.js:109-128) -/

/-- C6: every 201 registration response carries the created user's id,
username, email and isAdmin; the serialized body has no `password` key, and
the only strings in the body are the confirmation message, the username and
the email — neither the stored hash nor the raw password. -/
theorem c6_register_created_body (hash : String → String) (now : Nat) (db : DB)
    (b : RegisterBody) (h201 : (register hash now db b).1.status = 201) :
    ∃ u : User,
      (register hash now db b).2.users = db.users ++ [u] ∧
      u.username = b.name.getD "" ∧
      u.email = b.email.getD "" ∧
      u.password = hash (b.password.getD "") ∧
      (register hash now db b).1.body =
        .userRes "User registered successfully." ⟨u.id, u.username, u.email, u.isAdmin⟩ ∧
      "password" ∉ ((register hash now db b).1.body).keys ∧
      ((register hash now db b).1.body).strings =
        ["User registered successfully.", b.name.getD "", b.email.getD ""] := by
  by_cases h1 : (!truthyStr b.name || !truthyStr b.email || !truthyStr b.password) = true
  · simp [register, h1] at h201
  · by_cases h2 : (db.users.find? (fun u => u.email == b.email.getD "")).isSome = true
    · simp [register, h1, h2] at h201
    · by_cases h3 :
        (db.users.find? (fun u => u.username == b.name.getD "")).isSome = true
      · simp [register, h1, h2, h3] at h201
      · refine ⟨{ id := db.nextUserId,
                  username := b.name.getD "",
                  email := b.email.getD "",
                  password := hash (b.password.getD ""),
                  isAdmin := castBool (JSVal.orDefault b.isAdmin (.bool false)),
                  createdAt := now }, ?_, rfl, rfl, rfl, ?_, ?_, ?_⟩
        · simp [register, h1, h2, h3]
        · simp [register, h1, h2, h3]
        · simp [register, h1, h2, h3, Body.keys]
        · simp [register, h1, h2, h3, Body.strings]

/-- Fixture register request for the C6 witness. -/
def c6Body : RegisterBody :=
  { name := some "bob", email := some "b@x.com", password := some "pw" }

/-- C6 witness: the theorem applied to a fresh registration (the hash is
modelled as appending a marker). -/
theorem c6_register_created_body_witness :
    ∃ u : User,
      (register (fun s => s ++ "#") 3 {} c6Body).2.users = DB.users {} ++ [u] ∧
      u.username = c6Body.name.getD "" ∧
      u.email = c6Body.email.getD "" ∧
      u.password = (fun s => s ++ "#") (c6Body.password.getD "") ∧
      (register (fun s => s ++ "#") 3 {} c6Body).1.body =
        .userRes "User registered successfully." ⟨u.id, u.username, u.email, u.isAdmin⟩ ∧
      "password" ∉ ((register (fun s => s ++ "#") 3 {} c6Body).1.body).keys ∧
      ((register (fun s => s ++ "#") 3 {} c6Body).1.body).strings =
        ["User registered successfully.", c6Body.name.getD "", c6Body.email.getD ""] :=
  c6_register_created_body (fun s => s ++ "#") 3 {} c6Body (by decide)

/-! ## C7 — admin user listing (src/index.js:75-89) -/

/-- Transitivity of the descending creation-time comparator. -/
theorem createdDesc_trans (a b c : PublicUser) :
    createdDesc a b → createdDesc b c → createdDesc a c := by
  intro hab hbc
  simp only [createdDesc, decide_eq_true_eq] at *
  omega

/-- Totality of the descending creation-time comparator. -/
theorem createdDesc_total (a b : PublicUser) :
    createdDesc a b || createdDesc b a := by
  simp only [createdDesc, Bool.or_eq_true, decide_eq_true_eq]
  omega

/-- C7: `GET /api/register` answers 403 whenever neither the `isAdmin` query
parameter nor the `x-admin` header equals `"true"`; when at least one does, it
answers 200 with a permutation of all stored users sorted by creation time
descending, whose serialized records carry no `password` field. -/
theorem c7_admin_listing (db : DB) (q x : Option String) :
    ((q = some "true" ∨ x = some "true") →
      (getRegister db q x).status = 200 ∧
      ∃ l, (getRegister db q x).body = .users l ∧
        l.Perm (db.users.map User.toPublic) ∧
        l.Pairwise (fun a b => b.createdAt ≤ a.createdAt) ∧
        "password" ∉ publicUserKeys) ∧
    (q ≠ some "true" → x ≠ some "true" →
      getRegister db q x = ⟨403, .error "Access denied. Admins only."⟩) := by
  constructor
  · intro hadm
    have hcond : (q == some "true" || x == some "true") = true := by
      rcases hadm with h | h <;> simp [h]
    refine ⟨by simp [getRegister, hcond],
      (db.users.map User.toPublic).mergeSort createdDesc,
      by simp [getRegister, hcond], List.mergeSort_perm _ _, ?_,
      by simp [publicUserKeys]⟩
    have hsorted := List.sorted_mergeSort
      createdDesc_trans createdDesc_total (db.users.map User.toPublic)
    exact hsorted.imp (fun h => by simpa [createdDesc] using h)
  · intro hq hx
    have hcond : (q == some "true" || x == some "true") = false := by
      simp [hq, hx]
    simp [getRegister, hcond]

/-- Fixture database for the C7 witness. -/
def c7DB : DB :=
  { users := [{ id := 0, username := "a", email := "a@x.com", password := "h"
                isAdmin := false, createdAt := 1 },
              { id := 1, username := "b", email := "b@x.com", password := "g"
                isAdmin := true, createdAt := 2 }]
    nextUserId := 2 }

/-- C7 witness: the flagged and unflagged runs on the fixture database. -/
theorem c7_admin_listing_witness :
    (getRegister c7DB (some "true") none).status = 200 ∧
    getRegister c7DB none none = ⟨403, .error "Access denied. Admins only."⟩ :=
  ⟨((c7_admin_listing c7DB (some "true") none).1 (Or.inl rfl)).1,
    (c7_admin_listing c7DB none none).2 (by decide) (by decide)⟩

/-! ## C8 — caller-supplied admin flag (src/index.js:111-116) -/

/-- Computing `isAdmin || false` followed by the boolean cast is exactly JS truthiness
of the caller's value. -/
theorem castBool_orDefault (v : JSVal) :
    castBool (JSVal.orDefault v (.bool false)) = v.truthy := by
  show (JSVal.orDefault v (.bool false)).truthy = v.truthy
  unfold JSVal.orDefault
  by_cases h : v.truthy = true
  · rw [if_pos h]
  · have h' : v.truthy = false := by simpa using h
    simp only [h', Bool.false_eq_true, if_false]
    decide

/-- C8: the persisted user's `isAdmin` is exactly the truthiness of the
caller-supplied `isAdmin` body value — true whenever the request carries a
truthy value, false only when the field is absent or falsy. -/
theorem c8_isAdmin_caller_supplied (hash : String → String) (now : Nat)
    (db : DB) (b : RegisterBody)
    (h201 : (register hash now db b).1.status = 201) :
    ∃ u : User,
      (register hash now db b).2.users = db.users ++ [u] ∧
      u.isAdmin = b.isAdmin.truthy ∧
      (b.isAdmin.truthy = true → u.isAdmin = true) ∧
      (b.isAdmin.truthy = false → u.isAdmin = false) := by
  by_cases h1 : (!truthyStr b.name || !truthyStr b.email || !truthyStr b.password) = true
  · simp [register, h1] at h201
  · by_cases h2 : (db.users.find? (fun u => u.email == b.email.getD "")).isSome = true
    · simp [register, h1, h2] at h201
    · by_cases h3 :
        (db.users.find? (fun u => u.username == b.name.getD "")).isSome = true
      · simp [register, h1, h2, h3] at h201
      · refine ⟨{ id := db.nextUserId,
                  username := b.name.getD "",
                  email := b.email.getD "",
                  password := hash (b.password.getD ""),
                  isAdmin := castBool (JSVal.orDefault b.isAdmin (.bool false)),
                  createdAt := now }, by simp [register, h1, h2, h3],
          castBool_orDefault b.isAdmin, ?_, ?_⟩
        · intro h
          rw [castBool_orDefault, h]
        · intro h
          rw [castBool_orDefault, h]

/-- Fixture register request carrying a truthy `isAdmin` for the C8 witness. -/
def c8Body : RegisterBody :=
  { name := some "root", email := some "r@x.com", password := some "pw"
    isAdmin := .bool true }

/-- C8 witness: registering with `isAdmin: true` persists an admin user. -/
theorem c8_isAdmin_caller_supplied_witness :
    ∃ u : User,
      (register (fun s => s ++ "#") 4 {} c8Body).2.users = DB.users {} ++ [u] ∧
      u.isAdmin = JSVal.truthy c8Body.isAdmin ∧
      (JSVal.truthy c8Body.isAdmin = true → u.isAdmin = true) ∧
      (JSVal.truthy c8Body.isAdmin = false → u.isAdmin = false) :=
  c8_isAdmin_caller_supplied (fun s => s ++ "#") 4 {} c8Body (by decide)

/-! ## C9 — post-creation response (src/index.js:195-225) -/

/-- C9: a create request missing any of title/content/author/category answers
400 and persists nothing; a complete request answers 201 whose body is the
bare confirmation — its only serialized key is `message`, so neither the
created document nor its id is revealed. -/
theorem c9_create_response (now : Nat) (db : DB) (b : CreateBody) :
    ((truthyStr b.title = false ∨ truthyStr b.content = false ∨
      truthyStr b.author = false ∨ truthyStr b.category = false) →
      createPost now db b = (⟨400, .error "Missing required fields."⟩, db)) ∧
    (truthyStr b.title = true → truthyStr b.content = true →
      truthyStr b.author = true → truthyStr b.category = true →
      (createPost now db b).1 = ⟨201, .message "Post created successfully."⟩ ∧
      ((createPost now db b).1.body).keys = ["message"]) := by
  constructor
  · rintro (h | h | h | h) <;> simp [createPost, h]
  · intro h1 h2 h3 h4
    constructor <;> simp [createPost, h1, h2, h3, h4, Body.keys]

/-- Fixture create request for the C9 witness, missing `content`. -/
def c9Bad : CreateBody :=
  { title := some "t", author := some "a", category := some "k" }

/-- Fixture complete create request for the C9 witness. -/
def c9Good : CreateBody :=
  { title := some "t", content := some "c", author := some "a"
    category := some "k" }

/-- C9 witness: the incomplete request answers 400 leaving the store as it
was; the complete request answers 201 with the bare message. -/
theorem c9_create_response_witness :
    createPost 5 {} c9Bad = (⟨400, .error "Missing required fields."⟩, {}) ∧
    (createPost 5 {} c9Good).1 = ⟨201, .message "Post created successfully."⟩ :=
  ⟨(c9_create_response 5 {} c9Bad).1 (Or.inr (Or.inl (by decide))),
    ((c9_create_response 5 {} c9Good).2 (by decide) (by decide) (by decide)
      (by decide)).1⟩

end Blog
